import Mathlib

/-! Verification of the awesomation appengine core against its specification.

The Python sources under `src/appengine/` are shallowly embedded below:
  - ndb entities become Lean structures (unset `ndb` properties are `Option`
    fields holding `none`);
  - Python dict payloads become structures whose optional keys are `Option`
    fields (`none` = key absent), so that `dict.pop`/`del` key errors are
    representable;
  - fallible code returns `Except`, with Python exceptions (`flask.abort`
    status codes, `AttributeError`, `KeyError`) as explicit error values;
  - the datastore is an explicit association list threaded through the
    functions, written only by the embedded `put` calls.
-/

namespace Awesomation

/-- A generic scalar value (`ndb.GenericProperty` / JSON scalar). -/
inductive GVal where
  | bool (b : Bool)
  | int (n : Int)
  | str (s : String)
deriving DecidableEq, Repr

/-- Embedding of `zwave.py` `CommandClassValue(ndb.Model)`: one `(command class, value)`.
`command_class` and `index` are always set at construction
(`CommandClassValue(command_class=..., index=...)`); the remaining ndb
properties start unset (`none`). -/
structure CommandClassValue where
  command_class : String
  index : Int
  value : Option GVal := none
  read_only : Option Bool := none
  units : Option String := none
  genre : Option String := none
  label : Option String := none
  value_id : Option Int := none
  type : Option String := none
deriving DecidableEq, Repr

/-- The keyword-argument dict handed to `ccv.populate(**value)` in
`ZWaveDevice.handle_event` after the renames: keys `read_only`, `value_id`
and `value` are always present there; `genre`, `label`, `type`, `units`
are present only when the notification carried them. -/
structure ValuePayload where
  read_only : Bool
  value_id : Int
  value : GVal
  genre : Option String := none
  label : Option String := none
  type : Option String := none
  units : Option String := none
deriving DecidableEq, Repr

/-- Embedding of `ndb.Model.populate`: overwrite exactly the properties named in the
keyword arguments, leaving absent keys untouched. -/
def CommandClassValue.populate (ccv : CommandClassValue) (p : ValuePayload) :
    CommandClassValue :=
  { ccv with
    read_only := some p.read_only
    value_id := some p.value_id
    value := some p.value
    genre := match p.genre with | some g => some g | none => ccv.genre
    label := match p.label with | some l => some l | none => ccv.label
    type := match p.type with | some t => some t | none => ccv.type
    units := match p.units with | some u => some u | none => ccv.units }

/-- Does a `CommandClassValue` carry the composite key `(cc, idx)`?
This is the comparison on line 116 of `zwave.py`. -/
def ccvMatches (cc : String) (idx : Int) (ccv : CommandClassValue) : Bool :=
  ccv.command_class == cc && ccv.index == idx

/-- Embedding of `ZWaveDevice._command_class_value` fused with the in-place mutation the
caller performs on its result: linear scan of `zwave_command_class_values`,
the first entry matching `(cc, idx)` is updated by `f`; if none matches, a
fresh `CommandClassValue(command_class=cc, index=idx)` is appended and
updated by `f`. -/
def upsertCommandClassValue (cc : String) (idx : Int)
    (f : CommandClassValue → CommandClassValue) :
    List CommandClassValue → List CommandClassValue
  | [] => [f { command_class := cc, index := idx }]
  | ccv :: rest =>
      if ccvMatches cc idx ccv then
        f ccv :: rest
      else
        ccv :: upsertCommandClassValue cc idx f rest

/-- The `ValueAdded`/`ValueChanged` attribute upsert of
`ZWaveDevice.handle_event`: find-or-create the `(cc, idx)` entry and
`populate` it with the notification's remaining value fields. -/
def zwaveUpsert (ccvs : List CommandClassValue) (cc : String) (idx : Int)
    (p : ValuePayload) : List CommandClassValue :=
  upsertCommandClassValue cc idx (fun ccv => ccv.populate p) ccvs

/-- Number of entries carrying the key `(cc, idx)`. -/
def keyCount (cc : String) (idx : Int) (ccvs : List CommandClassValue) : Nat :=
  ccvs.countP (fun ccv => ccvMatches cc idx ccv)

-- Supporting lemmas about the upsert.

/-! ### Z-Wave device and event normalization (`zwave.py`) -/

/-- Python exceptions surfaced by the embedded code. -/
inductive PyErr where
  | keyError (key : String)
  | attributeError (msg : String)
deriving DecidableEq, Repr

/-- The `valueId` dict of a protocol notification. Keys that OpenZWave may
omit are `Option` fields (`none` = key absent from the dict); the spec's
schema lists `commandClass`, `index`, `id`, `readOnly`, `value`
unconditionally, so they are plain fields. The dict key `instance` is
embedded as the field `inst`. -/
structure ValueId where
  commandClass : String
  index : Int
  id : Int
  readOnly : Bool
  value : GVal
  genre : Option String := none
  label : Option String := none
  type : Option String := none
  units : Option String := none
  homeId : Option Int := none
  nodeId : Option Int := none
  inst : Option Int := none
deriving DecidableEq, Repr

/-- A raw protocol notification (the `event` dict of
`ZWaveDevice.handle_event`). -/
structure Notification where
  notificationType : String
  homeId : Option Int := none
  nodeId : Option Int := none
  valueId : Option ValueId := none
  node_type : Option String := none
  node_name : Option String := none
  manufacturer_name : Option String := none
  manufacturer_id : Option String := none
  product_name : Option String := none
  product_type : Option String := none
  product_id : Option String := none
deriving DecidableEq, Repr

/-- Embedding of `model.py` `Room`: owner, optional name, repeated device key references
(keys embedded as `Nat`). -/
structure Room where
  owner : String
  name : Option String := none
  devices : List Nat := []
deriving DecidableEq, Repr

/-- Association-list datastore keyed by `κ` (`Model.get_by_id`). -/
def lookupStore {κ α : Type} [BEq κ] (store : List (κ × α)) (k : κ) :
    Option α :=
  (store.find? (fun p => p.1 == k)).map Prod.snd

/-- Overwrite (or create) the entry under key `k` (`Model.put`). -/
def putStore {κ α : Type} [BEq κ] (store : List (κ × α)) (k : κ) (a : α) :
    List (κ × α) :=
  match store with
  | [] => [(k, a)]
  | p :: rest => if p.1 == k then (k, a) :: rest else p :: putStore rest k a

/-- The `ZWaveDevice` entity fields read or written by `handle_event` and
`lights` (`room` is the base `Device.room` key reference). -/
structure ZWaveDevice where
  zwave_home_id : Option Int := none
  zwave_node_id : Option Int := none
  zwave_command_class_values : List CommandClassValue := []
  zwave_node_type : Option String := none
  zwave_node_name : Option String := none
  zwave_manufacturer_name : Option String := none
  zwave_manufacturer_id : Option String := none
  zwave_product_name : Option String := none
  zwave_product_type : Option String := none
  zwave_product_id : Option String := none
  room : Option Nat := none
deriving DecidableEq, Repr

/-- External side effects recorded by the embedding. -/
inductive Effect where
  | setLights (roomId : Nat) (state : GVal)
deriving DecidableEq, Repr

/-- Embedding of `ZWaveDevice.lights(state)`: turn the lights on/off in the room this
sensor is in; returns with no effect when the device has no room reference
or the room lookup fails. `room.Room` and its `set_lights` live in
`appengine/room.py`, which is not under `src/`.
Modelled from the spec: the lights capability looks up the device's room
and sets that room's lights to `state`. -/
def ZWaveDevice.lights (dev : ZWaveDevice) (rooms : List (Nat × Room))
    (state : GVal) : List Effect :=
  match dev.room with
  | none => []
  | some rid =>
    match lookupStore rooms rid with
    | none => []
    | some _ => [Effect.setLights rid state]

/-- Lines 127-130 of `zwave.py`: notifications carrying `homeId` / `nodeId`
update the device's mesh identifiers, independent of `notificationType`. -/
def updateMeshIds (dev : ZWaveDevice) (event : Notification) : ZWaveDevice :=
  let dev1 := match event.homeId with
    | some h => { dev with zwave_home_id := some h }
    | none => dev
  match event.nodeId with
  | some n => { dev1 with zwave_node_id := some n }
  | none => dev1

/-- The `ValueAdded`/`ValueChanged` branch of `ZWaveDevice.handle_event`
applied to the already-extracted `valueId` dict: the `del value['homeId']`,
`del value['nodeId']`, `del value['instance']` statements raise `KeyError`
when the key is absent; otherwise the remaining fields are upserted into
`zwave_command_class_values`, and the binary-sensor command class
additionally triggers `lights(value['value'])`. -/
def ZWaveDevice.handle_value_event (dev : ZWaveDevice)
    (rooms : List (Nat × Room)) (vid : ValueId) :
    Except PyErr (ZWaveDevice × List Effect) :=
  match vid.homeId, vid.nodeId, vid.inst with
  | none, _, _ => .error (.keyError "homeId")
  | some _, none, _ => .error (.keyError "nodeId")
  | some _, some _, none => .error (.keyError "instance")
  | some _, some _, some _ =>
      let payload : ValuePayload :=
        { read_only := vid.readOnly, value_id := vid.id, value := vid.value,
          genre := vid.genre, label := vid.label, type := vid.type,
          units := vid.units }
      let ccvs := zwaveUpsert dev.zwave_command_class_values vid.commandClass
        vid.index payload
      let dev := { dev with zwave_command_class_values := ccvs }
      if vid.commandClass == "COMMAND_CLASS_SENSOR_BINARY" then
        .ok (dev, dev.lights rooms vid.value)
      else
        .ok (dev, [])

/-- The `NodeInfoUpdate` branch of `ZWaveDevice.handle_event`: each
`event['...']` subscript raises `KeyError` when the key is absent;
otherwise the descriptive fields are overwritten unconditionally. -/
def ZWaveDevice.handle_node_info (dev : ZWaveDevice) (event : Notification) :
    Except PyErr (ZWaveDevice × List Effect) :=
  match event.node_type with
  | none => .error (.keyError "node_type")
  | some nt =>
    match event.node_name with
    | none => .error (.keyError "node_name")
    | some nn =>
      match event.manufacturer_name with
      | none => .error (.keyError "manufacturer_name")
      | some mn =>
        match event.manufacturer_id with
        | none => .error (.keyError "manufacturer_id")
        | some mi =>
          match event.product_name with
          | none => .error (.keyError "product_name")
          | some pn =>
            match event.product_type with
            | none => .error (.keyError "product_type")
            | some pt =>
              match event.product_id with
              | none => .error (.keyError "product_id")
              | some pid =>
                .ok ({ dev with
                  zwave_node_type := some nt
                  zwave_node_name := some nn
                  zwave_manufacturer_name := some mn
                  zwave_manufacturer_id := some mi
                  zwave_product_name := some pn
                  zwave_product_type := some pt
                  zwave_product_id := some pid }, [])

/-- Embedding of `ZWaveDevice.handle_event`: dispatch over `notificationType`
(`super().handle_event` in `model.py` is `pass`). Unknown types are logged
and discarded. -/
def ZWaveDevice.handle_event (dev : ZWaveDevice) (rooms : List (Nat × Room))
    (event : Notification) : Except PyErr (ZWaveDevice × List Effect) :=
  let dev := updateMeshIds dev event
  if event.notificationType == "ValueAdded" ||
      event.notificationType == "ValueChanged" then
    match event.valueId with
    | none => .error (.keyError "valueId")
    | some vid => dev.handle_value_event rooms vid
  else if event.notificationType == "NodeInfoUpdate" then
    dev.handle_node_info event
  else
    .ok (dev, [])

/-- First concrete `ValueChanged` valueId used in the C1 witness. -/
def vidWitness1 : ValueId :=
  { commandClass := "COMMAND_CLASS_SWITCH_BINARY", index := 0, id := 7,
    readOnly := false, value := GVal.bool false, homeId := some 1,
    nodeId := some 2, inst := some 1 }

/-- Second concrete `ValueChanged` valueId used in the C1 witness. -/
def vidWitness2 : ValueId :=
  { commandClass := "COMMAND_CLASS_SWITCH_BINARY", index := 0, id := 7,
    readOnly := false, value := GVal.bool true, homeId := some 1,
    nodeId := some 2, inst := some 1 }

/-- Concrete notification wrapping `vidWitness1`. -/
def notifWitness1 : Notification :=
  { notificationType := "ValueChanged", valueId := some vidWitness1 }

/-- Concrete notification wrapping `vidWitness2`. -/
def notifWitness2 : Notification :=
  { notificationType := "ValueChanged", valueId := some vidWitness2 }

/-- The `valueId` dict of the spec's end-to-end scenario, exactly as the
spec writes it: `{"commandClass":"COMMAND_CLASS_SENSOR_BINARY","index":0,
"id":1,"readOnly":true,"value":true}` — no `homeId`, `nodeId` or
`instance` keys. -/
def specScenarioValueId : ValueId :=
  { commandClass := "COMMAND_CLASS_SENSOR_BINARY", index := 0, id := 1,
    readOnly := true, value := GVal.bool true }

/-- The spec's end-to-end scenario notification. -/
def specScenarioNotification : Notification :=
  { notificationType := "ValueChanged", valueId := some specScenarioValueId }

/-- A concrete room used in scenario witnesses. -/
def roomR : Room := { owner := "owner" }

/-- A concrete Z-Wave device placed in room 1. -/
def devInRoom1 : ZWaveDevice := { room := some 1 }

/-- The scenario valueId extended with the `homeId`, `nodeId` and
`instance` keys that `handle_event` requires. -/
def sensorBinaryValueId (h n i : Int) : ValueId :=
  { specScenarioValueId with
      homeId := some h
      nodeId := some n
      inst := some i }

/-- The amended scenario notification. -/
def sensorBinaryNotification (h n i : Int) : Notification :=
  { notificationType := "ValueChanged",
    valueId := some (sensorBinaryValueId h n i) }

/-! ### Device model and command dispatch (`model.py`) -/

/-- Errors surfaced by `Device.handle_command`. -/
inductive DispatchError where
  | clientError (status : Nat)
  | attributeError (name : String)
deriving DecidableEq, Repr

/-- A device's method table for Python attribute lookup: each method name
maps to the value of its `is_command` attribute — `none` when the
attribute is absent (the method was not decorated), `some true` when the
`Command` decorator set `func.is_command = True`. -/
def getattrMethod (methods : List (String × Option Bool)) (name : String) :
    Option (Option Bool) :=
  (methods.find? (fun p => p.1 == name)).map Prod.snd

/-- Embedding of `Device.handle_command`: pop the command name, look the method up with
`getattr(self, func_name, None)`; `if func is None or not func.is_command:
flask.abort(400)`. When `func` exists the `func.is_command` attribute
access raises `AttributeError` if the method was never decorated;
otherwise a `False` value aborts 400 and `True` invokes the handler
(returned as `.ok name`). -/
def handle_command (methods : List (String × Option Bool)) (name : String) :
    Except DispatchError String :=
  match getattrMethod methods name with
  | none => .error (.clientError 400)
  | some is_cmd =>
    match is_cmd with
    | none => .error (.attributeError name)
    | some b => if b then .ok name else .error (.clientError 400)

/-- The method table of the base `Device` class: only `set_room` is
decorated with `Command`; `to_dict`, `handle_event` and `handle_command`
carry no `is_command` attribute. -/
def deviceMethods : List (String × Option Bool) :=
  [("to_dict", none), ("handle_event", none), ("handle_command", none),
   ("set_room", some true)]

/-- The base `Device` entity fields used by `set_room` (`key` is the
datastore key, embedded as `Nat`). -/
structure Device where
  key : Nat
  owner : String
  name : Option String := none
  room : Option Nat := none
deriving DecidableEq, Repr

/-- One persisted mutation (`.put()` call). -/
inductive PutOp where
  | putRoom (roomId : Nat)
  | putDevice (deviceKey : Nat)
deriving DecidableEq, Repr

/-- Result of `Device.set_room`: the room store and device after the call,
the ordered trace of the `put` calls it made, and `some status` when it
aborted. -/
structure SetRoomResult where
  rooms : List (Nat × Room)
  dev : Device
  puts : List PutOp
  status : Option Nat
deriving DecidableEq, Repr

/-- Embedding of `Device.set_room(room_id)`: `flask.abort(404)` when `Room.get_by_id`
finds nothing (before any mutation); otherwise append the device key to
the room's device list, `put` the room, set the device's room reference,
`put` the device — two separate persisted mutations, in that order. -/
def set_room (rooms : List (Nat × Room)) (dev : Device) (room_id : Nat) :
    SetRoomResult :=
  match lookupStore rooms room_id with
  | none => { rooms := rooms, dev := dev, puts := [], status := some 404 }
  | some room =>
    let room2 := { room with devices := room.devices ++ [dev.key] }
    { rooms := putStore rooms room_id room2
      dev := { dev with room := some room_id }
      puts := [PutOp.putRoom room_id, PutOp.putDevice dev.key]
      status := none }

/-- A concrete device used in witnesses. -/
def devW : Device := { key := 42, owner := "owner" }

/-- A room that already references device key 42. -/
def roomWithDev42 : Room := { owner := "owner", devices := [42] }

/-! ### Z-Wave driver registry (`zwave.py`) -/

/-- A registered driver class: its Python `__name__` and the capability
list its `get_capabilities` returns. -/
structure DriverClass where
  name : String
  capabilities : List String
deriving DecidableEq, Repr

/-- The fallback base class `Driver`, whose `get_capabilities` returns the
empty list. -/
def baseDriver : DriverClass := { name := "Driver", capabilities := [] }

/-- The registry key `'%s-%s-%s' % (manufacturer_id, product_type,
product_id)`. -/
def driverKey (m t p : String) : String := m ++ "-" ++ t ++ "-" ++ p

/-- Module-level `get_driver`: `ZWAVE_DRIVERS.get(key, Driver)` — returns
the fallback class when the key is unregistered; performs no logging. -/
def get_driver (registry : List (String × DriverClass)) (m t p : String) :
    DriverClass :=
  (lookupStore registry (driverKey m t p)).getD baseDriver

/-- The `ZWaveDevice.driver` property on a device with no cached driver
(`self._driver is None`): `_driver = ZWAVE_DRIVERS.get(key, None)`, then
`logging.info('ZWave driver for %s = %s', key, _driver.__name__)` — the
`__name__` attribute access raises `AttributeError` when the lookup
returned `None`, before the `if _driver is None: return Driver(self)`
fallback is reached. Success returns the driver and the log line. -/
def zwave_device_driver (registry : List (String × DriverClass))
    (m t p : String) : Except PyErr (DriverClass × String) :=
  match lookupStore registry (driverKey m t p) with
  | none =>
      Except.error (PyErr.attributeError
        "NoneType object has no attribute __name__")
  | some d =>
      Except.ok (d, "ZWave driver for " ++ driverKey m t p ++ " = " ++ d.name)

/-! ### Account linking (`account.py`) -/

/-- Embedding of the `Account` entity fields touched by the OAuth flow. The class attributes
`CLIENT_ID`/`CLIENT_SECRET` (None in the base class) are passed as
parameters; `expires` is ndb `FloatProperty`, embedded as `Int` since the
code only forms `time.time() + expires_in`. -/
structure Account where
  owner : String
  auth_code : Option String := none
  access_token : Option String := none
  expires : Option Int := none
  refresh_token : Option String := none
deriving DecidableEq, Repr

/-- The parameter dict the token-exchange URL is built from
(`refresh_access_token`, lines 57-60 of `account.py`). -/
structure TokenRequest where
  client_id : Option String
  auth_code : Option String
  client_secret : Option String
  grant_type : String
deriving DecidableEq, Repr

/-- The request `Account.refresh_access_token` actually builds: it carries
the STORED AUTH CODE under `grant_type='authorization_code'`. -/
def refreshTokenRequest (acct : Account) (cid cs : Option String) :
    TokenRequest :=
  { client_id := cid
    auth_code := acct.auth_code
    client_secret := cs
    grant_type := "authorization_code" }

/-- The parsed JSON body of a successful token-exchange response. -/
structure TokenResponse where
  access_token : String
  expires_in : Int
  refresh_token : Option String := none
deriving DecidableEq, Repr

/-- Embedding of `Account.refresh_access_token`: build the exchange request from the
stored auth code and POST it (the external HTTP call is the `exchange`
parameter, erroring with the HTTP status); an `HTTPError` is re-raised
after logging, committing nothing; on success store `access_token`, set
`expires = time.time() + expires_in`, and set
`refresh_token = result.get('refresh_token', None)` — cleared when the
response omits it. -/
def refresh_access_token (acct : Account) (cid cs : Option String)
    (now : Int) (exchange : TokenRequest → Except Nat TokenResponse) :
    Except Nat Account :=
  match exchange (refreshTokenRequest acct cid cs) with
  | .error e => .error e
  | .ok result =>
    .ok { acct with
      access_token := some result.access_token
      expires := some (now + result.expires_in)
      refresh_token := result.refresh_token }

/-- A concrete linked account: original auth code "AC", stored refresh
token "RT". -/
def acctW : Account :=
  { owner := "o", auth_code := some "AC", refresh_token := some "RT" }

/-- An external exchange that always succeeds. -/
def exchangeOkW : TokenRequest → Except Nat TokenResponse :=
  fun _ => .ok { access_token := "AT", expires_in := 3600 }

/-- An external exchange that always fails with HTTP 401. -/
def exchangeErrW : TokenRequest → Except Nat TokenResponse :=
  fun _ => .error 401

/-- The query parameters of the OAuth redirect callback
(`flask.request.args.get('code')` / `...get('state')`). -/
structure OAuthCallbackArgs where
  code : Option String
  state : Option String
deriving DecidableEq, Repr

/-- Embedding of `oauth_redirect_callback`: abort 400 when `code` or `state` is absent;
abort 400 when `Account.get_by_id(state)` finds nothing; otherwise store
the auth code on the in-memory entity, run the token exchange
(`refresh_access_token`, whose failure propagates), run `refresh_devices`
(a no-op in the base class) and `put` the account. The account store is
returned alongside the outcome; it is untouched on every failure path
because `put` is only reached on success. -/
def oauth_redirect_callback (store : List (String × Account))
    (args : OAuthCallbackArgs) (cid cs : Option String) (now : Int)
    (exchange : TokenRequest → Except Nat TokenResponse) :
    List (String × Account) × Except Nat String :=
  match args.code, args.state with
  | none, _ => (store, .error 400)
  | some _, none => (store, .error 400)
  | some code, some state =>
    match lookupStore store state with
    | none => (store, .error 400)
    | some acct =>
      match refresh_access_token { acct with auth_code := some code }
          cid cs now exchange with
      | .error e => (store, .error e)
      | .ok acct3 => (putStore store state acct3, .ok "OK")

/-! ### Push fanout (`user.py`) -/

/-- An accumulated user event: an opaque payload together with its
serialized size in the units of the batch limit. -/
structure Event where
  payload : String
  size : Nat
deriving DecidableEq, Repr

/-- Serialized size of a sub-batch: the sum of its events' sizes. -/
def batchSize (b : List Event) : Nat := (b.map Event.size).sum

/-- Greedy helper: extend a batch whose accumulated size is `acc` with the
longest prefix of the list that keeps the total within `maxSize`; returns
the taken prefix and the remainder. -/
def takeBatch (maxSize : Nat) : List Event → Nat → List Event × List Event
  | [], _ => ([], [])
  | e :: rest, acc =>
      if acc + e.size ≤ maxSize then
        (e :: (takeBatch maxSize rest (acc + e.size)).1,
          (takeBatch maxSize rest (acc + e.size)).2)
      else ([], e :: rest)

/-- Fuelled greedy split: each sub-batch opens with the next event and is
extended greedily within `maxSize`. The fuel only serves termination; it
is set to the list length, which always suffices. -/
def splitGo (maxSize : Nat) : Nat → List Event → List (List Event)
  | 0, _ => []
  | _ + 1, [] => []
  | fuel + 1, e :: rest =>
      (e :: (takeBatch maxSize rest e.size).1) ::
        splitGo maxSize fuel (takeBatch maxSize rest e.size).2

/-- Embedding of `utils.limit_json_batch(events, max_size)`.
Modelled from the spec: `common/utils.py` is not under `src/`; the spec
requires "splitting into sub-batches no larger than a fixed size limit
(8000 serialized units)", with sub-batches preserving original insertion
order and concatenating back to the original sequence. Greedy prefix
packing with one event always opening a batch realizes this for events
individually within the limit. -/
def limit_json_batch (events : List Event) (maxSize : Nat) :
    List (List Event) :=
  splitGo maxSize events.length events

/-- Outcome of one `push_events` flush. -/
inductive PushOutcome where
  | assertionError
  | delivered (calls : List (String × List Event))
deriving DecidableEq, Repr

/-- Embedding of `user.send_event(**kwargs)`: append `(building.get_id(), kwargs)` to
the request-scoped batch in `flask.g.user_events`, creating the buffer
when it does not exist yet. -/
def send_event (g : Option (List (String × Event))) (building_id : String)
    (e : Event) : Option (List (String × Event)) :=
  some (g.getD [] ++ [(building_id, e)])

/-- Embedding of `user.push_events()`: read `flask.g.user_events` and clear it before
anything else; return without delivering when it was never created;
`assert _building_id == building_id` for every accumulated pair (the
flush-time `building.get_id()`); then deliver the stripped events on
channel `private-<building_id>`, one `pusher_shim.push` call per sub-batch
of `utils.limit_json_batch(events, max_size=8000)`. -/
def push_events (g : Option (List (String × Event)))
    (building_id : String) :
    Option (List (String × Event)) × PushOutcome :=
  match g with
  | none => (none, .delivered [])
  | some events =>
    if events.all (fun p => p.1 == building_id) then
      (none, .delivered ((limit_json_batch (events.map Prod.snd) 8000).map
        (fun batch => ("private-" ++ building_id, batch))))
    else
      (none, .assertionError)

/-- Concrete mixed-building and single-building buffers for the C5
witness. -/
def eventsMixedW : List (String × Event) :=
  [("b1", { payload := "x", size := 1 }), ("b2", { payload := "y", size := 1 })]

/-- A single-building buffer for the C5 witness. -/
def eventsOneW : List (String × Event) :=
  [("b1", { payload := "x", size := 1 }), ("b1", { payload := "y", size := 1 })]

/-- Concrete oversize event sequence for the C6 witness: sizes 5000, 4000
and 3000 (total 12000). -/
def eventsBigW : List Event :=
  [{ payload := "a", size := 5000 }, { payload := "b", size := 4000 },
   { payload := "c", size := 3000 }]

/-! ### Theorems -/

theorem populate_matches (cc : String) (idx : Int) (p : ValuePayload)
    (ccv : CommandClassValue) :
    ccvMatches cc idx (ccv.populate p) = ccvMatches cc idx ccv := by
  simp [ccvMatches, CommandClassValue.populate]

/-- After an upsert there is exactly one entry for the key, provided there
was at most one before. -/
theorem zwaveUpsert_keyCount (cc : String) (idx : Int) (p : ValuePayload) :
    ∀ ccvs : List CommandClassValue, keyCount cc idx ccvs ≤ 1 →
      keyCount cc idx (zwaveUpsert ccvs cc idx p) = 1 := by
  intro ccvs h
  induction ccvs with
  | nil =>
      simp [zwaveUpsert, upsertCommandClassValue, keyCount,
        CommandClassValue.populate, ccvMatches]
  | cons ccv rest ih =>
      by_cases hm : ccvMatches cc idx ccv
      · have hrest : rest.countP (fun c => ccvMatches cc idx c) = 0 := by
          simp only [keyCount, List.countP_cons, hm, if_true] at h
          omega
        simp only [zwaveUpsert, upsertCommandClassValue, hm, if_true,
          keyCount, List.countP_cons]
        rw [populate_matches]
        simp only [keyCount] at hrest ⊢
        simp [hrest, hm]
      · have hm' : ccvMatches cc idx ccv = false := by simpa using hm
        have hrest : keyCount cc idx rest ≤ 1 := by
          simp only [keyCount, List.countP_cons, hm'] at h
          simpa using h
        have ih1 := ih hrest
        simp only [zwaveUpsert, upsertCommandClassValue, hm', if_false,
          Bool.false_eq_true, keyCount, List.countP_cons, hm']
        simp only [zwaveUpsert, keyCount] at ih1
        simp [ih1]

/-- After an upsert, every entry for the key carries the payload's value
fields, provided at most one entry carried the key before. -/
theorem zwaveUpsert_fields (cc : String) (idx : Int) (p : ValuePayload) :
    ∀ ccvs : List CommandClassValue, keyCount cc idx ccvs ≤ 1 →
      ∀ ccv ∈ zwaveUpsert ccvs cc idx p, ccvMatches cc idx ccv = true →
        ccv.value = some p.value ∧ ccv.read_only = some p.read_only ∧
        ccv.value_id = some p.value_id := by
  intro ccvs h
  induction ccvs with
  | nil =>
      intro ccv hmem _
      simp only [zwaveUpsert, upsertCommandClassValue, List.mem_singleton]
        at hmem
      subst hmem
      simp [CommandClassValue.populate]
  | cons ccv rest ih =>
      intro c hc hcm
      by_cases hm : ccvMatches cc idx ccv
      · have hrest : rest.countP (fun x => ccvMatches cc idx x) = 0 := by
          simp only [keyCount, List.countP_cons, hm, if_true] at h
          omega
        simp only [zwaveUpsert, upsertCommandClassValue, hm, if_true,
          List.mem_cons] at hc
        rcases hc with rfl | hc
        · simp [CommandClassValue.populate]
        · exfalso
          have hpos : 0 < rest.countP (fun x => ccvMatches cc idx x) :=
            List.countP_pos_iff.mpr ⟨c, hc, hcm⟩
          omega
      · have hm' : ccvMatches cc idx ccv = false := by simpa using hm
        have hrest : keyCount cc idx rest ≤ 1 := by
          simp only [keyCount, List.countP_cons, hm'] at h
          simpa using h
        simp only [zwaveUpsert, upsertCommandClassValue, hm', if_false,
          Bool.false_eq_true, List.mem_cons] at hc
        rcases hc with rfl | hc
        · exact absurd hcm (by simp [hm'])
        · exact ih hrest c hc hcm

/-- An upsert appends exactly when the key was absent; when the key was
present the entry is updated in place and the list length is unchanged. -/
theorem zwaveUpsert_length (cc : String) (idx : Int) (p : ValuePayload) :
    ∀ ccvs : List CommandClassValue,
      (zwaveUpsert ccvs cc idx p).length =
        (if keyCount cc idx ccvs = 0 then ccvs.length + 1 else ccvs.length) := by
  intro ccvs
  induction ccvs with
  | nil => simp [zwaveUpsert, upsertCommandClassValue, keyCount]
  | cons ccv rest ih =>
      by_cases hm : ccvMatches cc idx ccv
      · simp [zwaveUpsert, upsertCommandClassValue, hm, keyCount,
          List.countP_cons]
      · have hm' : ccvMatches cc idx ccv = false := by simpa using hm
        simp only [zwaveUpsert, upsertCommandClassValue, hm', if_false,
          Bool.false_eq_true, keyCount, List.countP_cons, hm',
          List.length_cons]
        simp only [zwaveUpsert, keyCount] at ih
        simp only [ih]
        by_cases h0 : List.countP (fun c => ccvMatches cc idx c) rest = 0
        · simp [h0]
        · simp [h0]

theorem lookupStore_putStore {κ α : Type} [BEq κ] [LawfulBEq κ]
    (store : List (κ × α)) (k : κ) (a : α) :
    lookupStore (putStore store k a) k = some a := by
  induction store with
  | nil => simp [putStore, lookupStore]
  | cons p rest ih =>
      by_cases h : p.1 == k
      · simp [putStore, h, lookupStore]
      · have h' : (p.1 == k) = false := by simpa using h
        simp only [putStore, h', Bool.false_eq_true, if_false, lookupStore,
          List.find?_cons, h']
        simpa [lookupStore] using ih

theorem updateMeshIds_ccvs (dev : ZWaveDevice) (event : Notification) :
    (updateMeshIds dev event).zwave_command_class_values =
      dev.zwave_command_class_values ∧
    (updateMeshIds dev event).room = dev.room := by
  unfold updateMeshIds
  cases event.homeId <;> cases event.nodeId <;> simp

/-- A `ValueChanged` notification whose `valueId` carries the `homeId`,
`nodeId` and `instance` keys normalizes successfully, and the resulting
attribute list is the upsert of the notification's value fields. -/
theorem handle_event_valuechanged (dev : ZWaveDevice)
    (rooms : List (Nat × Room)) (event : Notification) (vid : ValueId)
    (ht : event.notificationType = "ValueChanged")
    (hv : event.valueId = some vid)
    (hh : vid.homeId.isSome = true) (hn : vid.nodeId.isSome = true)
    (hi : vid.inst.isSome = true) :
    ∃ dev2 eff, dev.handle_event rooms event = Except.ok (dev2, eff) ∧
      dev2.zwave_command_class_values =
        zwaveUpsert dev.zwave_command_class_values vid.commandClass vid.index
          { read_only := vid.readOnly, value_id := vid.id, value := vid.value,
            genre := vid.genre, label := vid.label, type := vid.type,
            units := vid.units } := by
  obtain ⟨h, hh⟩ := Option.isSome_iff_exists.mp hh
  obtain ⟨n, hn⟩ := Option.isSome_iff_exists.mp hn
  obtain ⟨i, hi⟩ := Option.isSome_iff_exists.mp hi
  have hccv := (updateMeshIds_ccvs dev event).1
  simp only [ZWaveDevice.handle_event, ht, hv]
  simp only [ZWaveDevice.handle_value_event, hh, hn, hi]
  by_cases hsb : vid.commandClass == "COMMAND_CLASS_SENSOR_BINARY"
  · simp only [hsb, if_true]
    refine ⟨_, _, rfl, ?_⟩
    simp [hccv]
  · have hsb' : (vid.commandClass == "COMMAND_CLASS_SENSOR_BINARY") = false := by
      simpa using hsb
    simp only [hsb', Bool.false_eq_true, if_false]
    refine ⟨_, _, rfl, ?_⟩
    simp [hccv]

/-- C1: for every Z-Wave device whose attribute list holds at most one
entry for `(cc, idx)`, applying two `ValueChanged` normalizations carrying
that pair leaves exactly one `CommandClassValue` keyed `(cc, idx)`, holding
the value fields of the second notification; the second upsert updates in
place and does not lengthen the list (idempotent upsert, last-write-wins). -/
theorem C1_valuechanged_upsert (dev : ZWaveDevice) (rooms : List (Nat × Room))
    (ev1 ev2 : Notification) (vid1 vid2 : ValueId) (cc : String) (idx : Int)
    (ht1 : ev1.notificationType = "ValueChanged")
    (ht2 : ev2.notificationType = "ValueChanged")
    (hv1 : ev1.valueId = some vid1) (hv2 : ev2.valueId = some vid2)
    (hk1 : vid1.commandClass = cc) (hk2 : vid2.commandClass = cc)
    (hx1 : vid1.index = idx) (hx2 : vid2.index = idx)
    (hh1 : vid1.homeId.isSome = true) (hn1 : vid1.nodeId.isSome = true)
    (hi1 : vid1.inst.isSome = true)
    (hh2 : vid2.homeId.isSome = true) (hn2 : vid2.nodeId.isSome = true)
    (hi2 : vid2.inst.isSome = true)
    (hinv : keyCount cc idx dev.zwave_command_class_values ≤ 1) :
    ∃ dev1 eff1 dev2 eff2,
      dev.handle_event rooms ev1 = Except.ok (dev1, eff1) ∧
      dev1.handle_event rooms ev2 = Except.ok (dev2, eff2) ∧
      keyCount cc idx dev2.zwave_command_class_values = 1 ∧
      (∀ ccv ∈ dev2.zwave_command_class_values,
        ccvMatches cc idx ccv = true →
          ccv.value = some vid2.value ∧ ccv.read_only = some vid2.readOnly ∧
          ccv.value_id = some vid2.id) ∧
      dev2.zwave_command_class_values.length =
        dev1.zwave_command_class_values.length := by
  obtain ⟨dev1, eff1, hrun1, hl1⟩ :=
    handle_event_valuechanged dev rooms ev1 vid1 ht1 hv1 hh1 hn1 hi1
  obtain ⟨dev2, eff2, hrun2, hl2⟩ :=
    handle_event_valuechanged dev1 rooms ev2 vid2 ht2 hv2 hh2 hn2 hi2
  subst hk1; subst hx1
  rw [hk2, hx2] at hl2
  have hcount1 : keyCount vid1.commandClass vid1.index
      dev1.zwave_command_class_values = 1 := by
    rw [hl1]
    exact zwaveUpsert_keyCount _ _ _ _ hinv
  have hle1 : keyCount vid1.commandClass vid1.index
      dev1.zwave_command_class_values ≤ 1 := le_of_eq hcount1
  refine ⟨dev1, eff1, dev2, eff2, hrun1, hrun2, ?_, ?_, ?_⟩
  · rw [hl2]
    exact zwaveUpsert_keyCount _ _ _ _ hle1
  · rw [hl2]
    intro ccv hmem hmatch
    exact zwaveUpsert_fields _ _ _ _ hle1 ccv hmem hmatch
  · rw [hl2, zwaveUpsert_length]
    simp [hcount1]

/-- Witness for C1 at a concrete device and two concrete notifications. -/
theorem C1_valuechanged_upsert_witness :
    ∃ dev1 eff1 dev2 eff2,
      ZWaveDevice.handle_event {} [] notifWitness1 = Except.ok (dev1, eff1) ∧
      ZWaveDevice.handle_event dev1 [] notifWitness2 = Except.ok (dev2, eff2) ∧
      keyCount "COMMAND_CLASS_SWITCH_BINARY" 0
        dev2.zwave_command_class_values = 1 ∧
      (∀ ccv ∈ dev2.zwave_command_class_values,
        ccvMatches "COMMAND_CLASS_SWITCH_BINARY" 0 ccv = true →
          ccv.value = some vidWitness2.value ∧
          ccv.read_only = some vidWitness2.readOnly ∧
          ccv.value_id = some vidWitness2.id) ∧
      dev2.zwave_command_class_values.length =
        dev1.zwave_command_class_values.length :=
  C1_valuechanged_upsert {} [] notifWitness1 notifWitness2 vidWitness1
    vidWitness2 "COMMAND_CLASS_SWITCH_BINARY" 0 rfl rfl rfl rfl rfl rfl rfl
    rfl rfl rfl rfl rfl rfl rfl (by decide)

/-- C9 counterexample: normalizing the spec's exact scenario payload against
a device placed in an existing room raises `KeyError: 'homeId'` (the code
unconditionally executes `del value['homeId']`), instead of upserting the
attribute and triggering the lights capability. -/
theorem C9_scenario_counterexample :
    ZWaveDevice.handle_event devInRoom1 [(1, roomR)] specScenarioNotification
      = Except.error (PyErr.keyError "homeId") := by
  rfl

/-- C9 (amended): normalizing the scenario payload — extended with the
`homeId`/`nodeId`/`instance` keys the code deletes — against a device
placed in an existing room R invokes the lights capability with the
notified value and leaves exactly one attribute keyed
`(COMMAND_CLASS_SENSOR_BINARY, 0)` holding that value. -/
theorem C9_sensor_binary_scenario (dev : ZWaveDevice)
    (rooms : List (Nat × Room)) (rid : Nat) (r : Room) (h n i : Int)
    (hroom : dev.room = some rid) (hlook : lookupStore rooms rid = some r)
    (hinv : keyCount "COMMAND_CLASS_SENSOR_BINARY" 0
      dev.zwave_command_class_values ≤ 1) :
    ∃ dev2,
      dev.handle_event rooms (sensorBinaryNotification h n i) =
        Except.ok (dev2, [Effect.setLights rid (GVal.bool true)]) ∧
      keyCount "COMMAND_CLASS_SENSOR_BINARY" 0
        dev2.zwave_command_class_values = 1 ∧
      (∀ ccv ∈ dev2.zwave_command_class_values,
        ccvMatches "COMMAND_CLASS_SENSOR_BINARY" 0 ccv = true →
          ccv.value = some (GVal.bool true)) := by
  simp only [ZWaveDevice.handle_event, sensorBinaryNotification,
    sensorBinaryValueId, specScenarioValueId, ZWaveDevice.handle_value_event,
    updateMeshIds, ZWaveDevice.lights, hroom, hlook, String.reduceBEq,
    beq_self_eq_true, Bool.false_or, Bool.or_true, if_true]
  refine ⟨_, rfl, ?_, ?_⟩
  · exact zwaveUpsert_keyCount _ _ _ _ hinv
  · intro ccv hmem hmatch
    exact (zwaveUpsert_fields _ _ _ _ hinv ccv hmem hmatch).1

/-- Witness for the amended C9 scenario at a concrete device and room. -/
theorem C9_sensor_binary_scenario_witness :
    devInRoom1.room = some 1 ∧
    lookupStore [(1, roomR)] 1 = some roomR ∧
    keyCount "COMMAND_CLASS_SENSOR_BINARY" 0
      devInRoom1.zwave_command_class_values ≤ 1 ∧
    ∃ dev2,
      devInRoom1.handle_event [(1, roomR)] (sensorBinaryNotification 5 6 1) =
        Except.ok (dev2, [Effect.setLights 1 (GVal.bool true)]) ∧
      keyCount "COMMAND_CLASS_SENSOR_BINARY" 0
        dev2.zwave_command_class_values = 1 ∧
      (∀ ccv ∈ dev2.zwave_command_class_values,
        ccvMatches "COMMAND_CLASS_SENSOR_BINARY" 0 ccv = true →
          ccv.value = some (GVal.bool true)) :=
  ⟨by decide, by decide, by decide,
    C9_sensor_binary_scenario devInRoom1 [(1, roomR)] 1 roomR 5 6 1
      (by decide) (by decide) (by decide)⟩

/-- C3 (code evaluated at the failing input): dispatching the name of an
existing non-command method (`handle_event`) raises `AttributeError` from
the `func.is_command` attribute access instead of aborting with the 400
client error that the dispatcher's own error branch intends; an absent
name does abort 400, and a `Command`-decorated name is invoked. -/
theorem C3_dispatch_noncommand_eval :
    handle_command deviceMethods "handle_event" =
      Except.error (DispatchError.attributeError "handle_event") ∧
    handle_command deviceMethods "frobnicate" =
      Except.error (DispatchError.clientError 400) ∧
    handle_command deviceMethods "set_room" = Except.ok "set_room" :=
  ⟨rfl, rfl, rfl⟩

/-- C7: dispatching `set_room` with an unresolvable room id aborts with
404 (`NotFoundError`), performing no `put` and leaving the room store and
the device unchanged; with an existing room it appends the device key to
that room's device list and sets the device's room reference, as two
separate persisted mutations (room first, then device). -/
theorem C7_set_room (rooms : List (Nat × Room)) (dev : Device) (rid : Nat) :
    (lookupStore rooms rid = none →
      set_room rooms dev rid =
        { rooms := rooms, dev := dev, puts := [], status := some 404 }) ∧
    (∀ room, lookupStore rooms rid = some room →
      set_room rooms dev rid =
        { rooms := putStore rooms rid
            { room with devices := room.devices ++ [dev.key] }
          dev := { dev with room := some rid }
          puts := [PutOp.putRoom rid, PutOp.putDevice dev.key]
          status := none }) := by
  constructor
  · intro hnone
    simp [set_room, hnone]
  · intro room hsome
    simp [set_room, hsome]

/-- Witness for C7 at a concrete store, device and room ids. -/
theorem C7_set_room_witness :
    (lookupStore ([] : List (Nat × Room)) 5 = none ∧
      set_room [] devW 5 =
        { rooms := [], dev := devW, puts := [], status := some 404 }) ∧
    (lookupStore [(1, roomR)] 1 = some roomR ∧
      set_room [(1, roomR)] devW 1 =
        { rooms := putStore [(1, roomR)] 1
            { roomR with devices := roomR.devices ++ [devW.key] }
          dev := { devW with room := some 1 }
          puts := [PutOp.putRoom 1, PutOp.putDevice devW.key]
          status := none }) :=
  ⟨⟨rfl, (C7_set_room [] devW 5).1 rfl⟩,
   ⟨rfl, (C7_set_room [(1, roomR)] devW 1).2 roomR rfl⟩⟩

/-- C10: `set_room` appends the device key unconditionally, so a second
successful call for a device the room already references leaves a
duplicate entry in the room's device list — the list does not behave as a
set. -/
theorem C10_set_room_duplicate (rooms : List (Nat × Room)) (dev : Device)
    (rid : Nat) (room : Room) (hfound : lookupStore rooms rid = some room)
    (hmem : dev.key ∈ room.devices) :
    ∃ room2, lookupStore (set_room rooms dev rid).rooms rid = some room2 ∧
      2 ≤ room2.devices.count dev.key := by
  refine ⟨{ room with devices := room.devices ++ [dev.key] }, ?_, ?_⟩
  · simp only [set_room, hfound]
    exact lookupStore_putStore rooms rid _
  · show 2 ≤ (room.devices ++ [dev.key]).count dev.key
    rw [List.count_append]
    have h1 : [dev.key].count dev.key = 1 := by simp
    have h2 : 0 < room.devices.count dev.key := List.count_pos_iff.mpr hmem
    omega

/-- Witness for C10: room 1 already references device 42; after `set_room`
it references it twice. -/
theorem C10_set_room_duplicate_witness :
    lookupStore [(1, roomWithDev42)] 1 = some roomWithDev42 ∧
    devW.key ∈ roomWithDev42.devices ∧
    ∃ room2,
      lookupStore (set_room [(1, roomWithDev42)] devW 1).rooms 1 =
        some room2 ∧
      2 ≤ room2.devices.count devW.key :=
  ⟨rfl, by decide,
    C10_set_room_duplicate [(1, roomWithDev42)] devW 1 roomWithDev42 rfl
      (by decide)⟩

/-- C4 (code evaluated at the failing input): resolving the driver of an
unregistered `(manufacturer, product type, product id)` triple through the
`ZWaveDevice.driver` property raises `AttributeError` while formatting the
log line — the fallback branch below it is unreachable — contradicting
"resolution never fails". The module-level `get_driver` does return the
fallback class, whose capability list is empty, but logs nothing. -/
theorem C4_driver_resolution_eval :
    zwave_device_driver [] "0x86" "0x3" "0x6" =
      Except.error (PyErr.attributeError
        "NoneType object has no attribute __name__") ∧
    get_driver [] "0x86" "0x3" "0x6" = baseDriver ∧
    baseDriver.capabilities = [] :=
  ⟨rfl, rfl, rfl⟩

/-- C8 counterexample: on an account holding both an auth code and a
refresh token, the refresh operation's exchange request carries the
original auth code under `grant_type='authorization_code'` — not the
stored refresh credential the claim says it uses instead. -/
theorem C8_refresh_uses_auth_code_counterexample :
    (refreshTokenRequest acctW none none).auth_code = some "AC" ∧
    (refreshTokenRequest acctW none none).grant_type =
      "authorization_code" ∧
    acctW.refresh_token = some "RT" ∧
    (refreshTokenRequest acctW none none).auth_code ≠ acctW.refresh_token :=
  ⟨rfl, rfl, rfl, by decide⟩

/-- C8 (amended): refresh re-runs the token exchange with the stored auth
code under `grant_type='authorization_code'` (not the refresh
credentials); on success it stores `access_token`, sets
`expires = now + expires_in`, and overwrites `refresh_token` with the
response's value (`None` when absent); an exchange failure propagates to
the caller unchanged, without retry and committing nothing. -/
theorem C8_refresh_access_token (acct : Account) (cid cs : Option String)
    (now : Int) (exchange : TokenRequest → Except Nat TokenResponse) :
    ((refreshTokenRequest acct cid cs).auth_code = acct.auth_code ∧
     (refreshTokenRequest acct cid cs).grant_type =
       "authorization_code") ∧
    (∀ e, exchange (refreshTokenRequest acct cid cs) = Except.error e →
      refresh_access_token acct cid cs now exchange = Except.error e) ∧
    (∀ r, exchange (refreshTokenRequest acct cid cs) = Except.ok r →
      refresh_access_token acct cid cs now exchange =
        Except.ok { acct with
          access_token := some r.access_token
          expires := some (now + r.expires_in)
          refresh_token := r.refresh_token }) := by
  refine ⟨⟨rfl, rfl⟩, ?_, ?_⟩ <;> intro x hx <;>
    simp [refresh_access_token, hx]

/-- Witness for C8 (amended) at a concrete account, both exchange
outcomes. -/
theorem C8_refresh_access_token_witness :
    refresh_access_token acctW none none 1000 exchangeErrW =
      Except.error 401 ∧
    refresh_access_token acctW none none 1000 exchangeOkW =
      Except.ok { acctW with
        access_token := some "AT"
        expires := some (1000 + 3600)
        refresh_token := none } :=
  ⟨(C8_refresh_access_token acctW none none 1000 exchangeErrW).2.1 401 rfl,
   (C8_refresh_access_token acctW none none 1000 exchangeOkW).2.2
     { access_token := "AT", expires_in := 3600 } rfl⟩

/-- C2 counterexample: a callback carrying an auth code and a state token
that was never issued fails with the generic 400 client error
(`flask.abort(400)`), not with a 404 `NotFoundError`; the account store is
unchanged. -/
theorem C2_callback_counterexample :
    oauth_redirect_callback [("issued", acctW)]
        { code := some "AC", state := some "never-issued" } none none 0
        exchangeOkW =
      ([("issued", acctW)], Except.error 400) ∧
    (400 : Nat) ≠ 404 :=
  ⟨rfl, by decide⟩

/-- C2 (amended): a callback missing the auth code or the state parameter
aborts with the 400 client error, and so does a callback whose state token
identifies no existing Account (the same `flask.abort(400)`, not a 404
`NotFoundError`); in every failure case the account store is returned
unchanged — no AccountLink is created or mutated — and the outcome is the
same whatever the external exchange would have answered. -/
theorem C2_oauth_callback_failures (store : List (String × Account))
    (args : OAuthCallbackArgs) (cid cs : Option String) (now : Int)
    (exchange : TokenRequest → Except Nat TokenResponse)
    (hfail : args.code = none ∨ args.state = none ∨
      (∃ s, args.state = some s ∧ lookupStore store s = none)) :
    oauth_redirect_callback store args cid cs now exchange =
      (store, Except.error 400) := by
  rcases hfail with hc | hs | ⟨s, hs, hlook⟩
  · cases hst : args.state <;>
      simp [oauth_redirect_callback, hc, hst]
  · cases hcd : args.code <;>
      simp [oauth_redirect_callback, hcd, hs]
  · cases hcd : args.code with
    | none => simp [oauth_redirect_callback, hcd, hs]
    | some c => simp [oauth_redirect_callback, hcd, hs, hlook]

/-- Witness for C2 (amended) at a concrete store and never-issued state. -/
theorem C2_oauth_callback_failures_witness :
    lookupStore [("issued", acctW)] "never-issued" = none ∧
    oauth_redirect_callback [("issued", acctW)]
        { code := some "AC", state := some "never-issued" } none none 0
        exchangeErrW =
      ([("issued", acctW)], Except.error 400) :=
  ⟨rfl,
    C2_oauth_callback_failures [("issued", acctW)]
      { code := some "AC", state := some "never-issued" } none none 0
      exchangeErrW (Or.inr (Or.inr ⟨"never-issued", rfl, rfl⟩))⟩

theorem takeBatch_append (maxSize : Nat) :
    ∀ (l : List Event) (acc : Nat),
      (takeBatch maxSize l acc).1 ++ (takeBatch maxSize l acc).2 = l ∧
      (takeBatch maxSize l acc).2.length ≤ l.length := by
  intro l
  induction l with
  | nil => intro acc; simp [takeBatch]
  | cons e rest ih =>
      intro acc
      by_cases h : acc + e.size ≤ maxSize
      · simp only [takeBatch, h, if_true]
        obtain ⟨h1, h2⟩ := ih (acc + e.size)
        refine ⟨by simp [h1], ?_⟩
        simp only [List.length_cons]
        omega
      · simp [takeBatch, h]

theorem takeBatch_sum (maxSize : Nat) :
    ∀ (l : List Event) (acc : Nat), acc ≤ maxSize →
      acc + batchSize (takeBatch maxSize l acc).1 ≤ maxSize := by
  intro l
  induction l with
  | nil => intro acc hacc; simpa [takeBatch, batchSize] using hacc
  | cons e rest ih =>
      intro acc hacc
      by_cases h : acc + e.size ≤ maxSize
      · simp only [takeBatch, h, if_true, batchSize, List.map_cons,
          List.sum_cons]
        have := ih (acc + e.size) h
        simp only [batchSize] at this
        omega
      · simpa [takeBatch, h, batchSize] using hacc

theorem splitGo_join (maxSize : Nat) :
    ∀ (fuel : Nat) (l : List Event), l.length ≤ fuel →
      (splitGo maxSize fuel l).flatten = l := by
  intro fuel
  induction fuel with
  | zero =>
      intro l hl
      have : l = [] := List.eq_nil_of_length_eq_zero (Nat.le_zero.mp hl)
      subst this
      simp [splitGo]
  | succ fuel ih =>
      intro l hl
      cases l with
      | nil => simp [splitGo]
      | cons e rest =>
          obtain ⟨happ, hlen⟩ := takeBatch_append maxSize rest e.size
          have hrest : rest.length ≤ fuel := by
            simpa using hl
          have hrec := ih (takeBatch maxSize rest e.size).2
            (Nat.le_trans hlen hrest)
          simp only [splitGo, List.flatten_cons]
          rw [hrec, List.cons_append, happ]

theorem splitGo_size (maxSize : Nat) :
    ∀ (fuel : Nat) (l : List Event), (∀ e ∈ l, e.size ≤ maxSize) →
      ∀ b ∈ splitGo maxSize fuel l, batchSize b ≤ maxSize := by
  intro fuel
  induction fuel with
  | zero => intro l _ b hb; simp [splitGo] at hb
  | succ fuel ih =>
      intro l hl b hb
      cases l with
      | nil => simp [splitGo] at hb
      | cons e rest =>
          obtain ⟨happ, _⟩ := takeBatch_append maxSize rest e.size
          simp only [splitGo, List.mem_cons] at hb
          rcases hb with rfl | hb
          · have he : e.size ≤ maxSize := hl e (by simp)
            have := takeBatch_sum maxSize rest e.size he
            simp only [batchSize, List.map_cons, List.sum_cons]
            simpa [batchSize] using this
          · refine ih _ ?_ b hb
            intro x hx
            refine hl x ?_
            have : x ∈ (takeBatch maxSize rest e.size).1 ++
                (takeBatch maxSize rest e.size).2 :=
              List.mem_append_right _ hx
            rw [happ] at this
            exact List.mem_cons_of_mem e this

/-- C5: every flush clears the buffer so it cannot leak into the next unit
of work; two accumulated events with different building ids make the
assertion raise before any delivery call; and when every event carries the
flush-time building id, the events are delivered on channel
`private-<buildingId>`, the delivered sub-batches concatenating back to
the accumulated sequence in order. -/
theorem C5_push_events_building_invariant
    (events : List (String × Event)) (building_id : String) :
    ((push_events (some events) building_id).1 = none ∧
     (push_events none building_id).1 = none) ∧
    ((∃ p1 ∈ events, ∃ p2 ∈ events, p1.1 ≠ p2.1) →
      push_events (some events) building_id =
        (none, PushOutcome.assertionError)) ∧
    ((∀ p ∈ events, p.1 = building_id) →
      ∃ calls, push_events (some events) building_id =
        (none, PushOutcome.delivered calls) ∧
        (∀ c ∈ calls, c.1 = "private-" ++ building_id) ∧
        (calls.map Prod.snd).flatten = events.map Prod.snd) := by
  refine ⟨⟨?_, rfl⟩, ?_, ?_⟩
  · simp only [push_events]
    split <;> rfl
  · rintro ⟨p1, hp1, p2, hp2, hne⟩
    have hnotall : events.all (fun p => p.1 == building_id) = false := by
      by_contra hall
      have hall' : events.all (fun p => p.1 == building_id) = true := by
        simpa using hall
      rw [List.all_eq_true] at hall'
      have e1 : p1.1 = building_id := by simpa using hall' p1 hp1
      have e2 : p2.1 = building_id := by simpa using hall' p2 hp2
      exact hne (e1.trans e2.symm)
    simp [push_events, hnotall]
  · intro hall
    have hall' : events.all (fun p => p.1 == building_id) = true := by
      rw [List.all_eq_true]
      intro p hp
      simpa using hall p hp
    refine ⟨(limit_json_batch (events.map Prod.snd) 8000).map
        (fun batch => ("private-" ++ building_id, batch)), ?_, ?_, ?_⟩
    · simp [push_events, hall']
    · intro c hc
      simp only [List.mem_map] at hc
      obtain ⟨b, _, rfl⟩ := hc
      rfl
    · rw [List.map_map]
      have hcomp : (Prod.snd ∘ fun batch : List Event =>
          ("private-" ++ building_id, batch)) = id := rfl
      rw [hcomp, List.map_id]
      exact splitGo_join 8000 _ _ le_rfl

/-- Witness for C5 at concrete buffers: a mixed flush asserts, a
homogeneous flush delivers on `private-b1`, both clear the buffer. -/
theorem C5_push_events_building_invariant_witness :
    (((push_events (some eventsMixedW) "b1").1 = none ∧
      (push_events none "b1").1 = none) ∧
     ((∃ p1 ∈ eventsMixedW, ∃ p2 ∈ eventsMixedW, p1.1 ≠ p2.1) →
       push_events (some eventsMixedW) "b1" =
         (none, PushOutcome.assertionError)) ∧
     ((∀ p ∈ eventsMixedW, p.1 = "b1") →
       ∃ calls, push_events (some eventsMixedW) "b1" =
         (none, PushOutcome.delivered calls) ∧
         (∀ c ∈ calls, c.1 = "private-" ++ "b1") ∧
         (calls.map Prod.snd).flatten = eventsMixedW.map Prod.snd)) ∧
    (∃ p1 ∈ eventsMixedW, ∃ p2 ∈ eventsMixedW, p1.1 ≠ p2.1) ∧
    (∀ p ∈ eventsOneW, p.1 = "b1") ∧
    (∃ calls, push_events (some eventsOneW) "b1" =
      (none, PushOutcome.delivered calls) ∧
      (∀ c ∈ calls, c.1 = "private-" ++ "b1") ∧
      (calls.map Prod.snd).flatten = eventsOneW.map Prod.snd) :=
  ⟨C5_push_events_building_invariant eventsMixedW "b1",
   by decide,
   by decide,
   (C5_push_events_building_invariant eventsOneW "b1").2.2 (by decide)⟩

/-- C6: an event sequence, each event within the 8000-unit limit, whose
total serialized size exceeds 8000 is split into at least two sub-batches,
each of serialized size at most 8000, and the concatenation of the
sub-batches in order reproduces the original sequence. -/
theorem C6_batch_split (events : List Event)
    (hev : ∀ e ∈ events, e.size ≤ 8000)
    (htot : 8000 < batchSize events) :
    2 ≤ (limit_json_batch events 8000).length ∧
    (∀ b ∈ limit_json_batch events 8000, batchSize b ≤ 8000) ∧
    (limit_json_batch events 8000).flatten = events := by
  have hjoin : (limit_json_batch events 8000).flatten = events :=
    splitGo_join 8000 events.length events le_rfl
  have hsize : ∀ b ∈ limit_json_batch events 8000, batchSize b ≤ 8000 :=
    splitGo_size 8000 events.length events hev
  refine ⟨?_, hsize, hjoin⟩
  match hsplit : limit_json_batch events 8000 with
  | [] =>
      rw [hsplit] at hjoin
      simp only [List.flatten_nil] at hjoin
      rw [← hjoin] at htot
      simp [batchSize] at htot
  | [b] =>
      rw [hsplit] at hjoin
      simp only [List.flatten_cons, List.flatten_nil, List.append_nil] at hjoin
      have hb : batchSize b ≤ 8000 := hsize b (by rw [hsplit]; simp)
      rw [hjoin] at hb
      omega
  | a :: b :: t => simp

/-- Witness for C6 at a concrete sequence totalling 12000 units. -/
theorem C6_batch_split_witness :
    (∀ e ∈ eventsBigW, e.size ≤ 8000) ∧
    8000 < batchSize eventsBigW ∧
    (2 ≤ (limit_json_batch eventsBigW 8000).length ∧
     (∀ b ∈ limit_json_batch eventsBigW 8000, batchSize b ≤ 8000) ∧
     (limit_json_batch eventsBigW 8000).flatten = eventsBigW) :=
  ⟨by decide, by decide, C6_batch_split eventsBigW (by decide) (by decide)⟩

end Awesomation
